import Mathlib

/-!
Verification of the reliable-delivery subsystem of the logdna/mezmo
log-forwarding agent, as implemented in `common/http/src/client.rs`
(the `Client` delivery orchestrator) and in the Linux startup privilege
step of `bin/src/main.rs`.

The orchestrator's `send` is straight-line async Rust; we embed it as a
pure function producing a trace of observable events (metric emissions,
log lines, offset-store operations, admission-slot acquisition, transport
invocations and retry enqueues).  External failure sources (the transport,
the offset write/flush handles, the retry enqueue, the retry poll) are
injected through an environment record, so every failure combination is a
point of the function's domain.
-/

namespace Agent

/-- Source identifier of a tailed file (the key of an offset record). -/
abbrev FileName := String

/-- `pub type Offset = (FileName, u64)`: a (source id, read offset) pair
carried by a batch. -/
abbrev Offset := FileName × Nat

/-- Opaque byte payload of an `IngestBodyBuffer`. -/
abbrev Body := List Nat

/-- `Response` from `types::response`: transport-level success or an
application-level rejection carrying the returned body, an HTTP status and
a reason string (matched in `client.rs` as `Response::Failed(_, s, r)`). -/
inductive Response where
  | Sent : Response
  | Failed (body : Body) (status : Nat) (reason : String) : Response
deriving Repr, DecidableEq

/-- `HttpError` from `types::error`: failures of the attempt itself.
`Send` and `Timeout` hand the undelivered body back to the caller;
the catch-all arm `Err(e)` of `client.rs` is any other error. -/
inductive HttpError where
  | Send (body : Body) (e : String) : HttpError
  | Timeout (body : Body) : HttpError
  | Other (e : String) : HttpError
deriving Repr, DecidableEq

/-- `Result<Response, HttpError>` returned by the inner HTTP client. -/
abbrev SendResult := Except HttpError Response

/-- Observable events emitted while executing one `Client::send` cycle. -/
inductive Event where
  | pollRetry : Event
  | offsetWrite (key : FileName) (off : Nat) : Event
  | metricRequestSize (n : Nat) : Event
  | metricFailure : Event
  | metricTimeout : Event
  | metricSuccess : Event
  | acquireSlot (body : Body) : Event
  | transportSend (body : Body) : Event
  | retryEnqueue (offsets : Option (List Offset)) (body : Body) : Event
  | flush : Event
  | logWarn (msg : String) : Event
  | logError (msg : String) : Event
  | fatal (msg : String) : Event
deriving Repr, DecidableEq

/-- The injected collaborators of a cycle: the inner transport, the offset
write handle's per-update outcome, the flush handle's outcome and the retry
engine's enqueue outcome.  Each `Except` models the Rust `Result` the
corresponding call returns. -/
structure Env where
  transport : Body → SendResult
  writeResult : FileName → Nat → Except String Unit
  flushResult : Except String Unit
  retryResult : Option (List Offset) → Body → Except String Unit

/-- `RateLimiter` (admission limiter) as visible from `client.rs`: it is
constructed with an explicit capacity. -/
structure RateLimiter where
  capacity : Nat
deriving Repr, DecidableEq

/-- `RateLimiter::new(n)`. -/
def RateLimiter.new (n : Nat) : RateLimiter := ⟨n⟩

/-- The `Client` struct: the admission limiter plus the optional offset
write/flush handles (their presence only; the handles' behaviour lives in
`Env`). -/
structure Client where
  limiter : RateLimiter
  state_write : Bool
  state_flush : Bool
  retry_base_delay : Nat
deriving Repr, DecidableEq

/-- `Client::new`: `state_handles.map(|(sw, sf)| (Some(sw), Some(sf)))
.unwrap_or((None, None))`, and a limiter of capacity 10. -/
def Client.new (state_handles : Option (Unit × Unit))
    (retry_base_delay : Nat) : Client :=
  let swsf := (state_handles.map (fun _ => (true, true))).getD (false, false)
  { limiter := RateLimiter.new 10
    state_write := swsf.1
    state_flush := swsf.2
    retry_base_delay := retry_base_delay }

/-- The offset-update loop of `Client::send` (`for (key, offset) in offsets
{ if let Err(e) = wh.update(key, *offset).await { error!(...) } }`), guarded
by the presence of the write handle and of the offsets, exactly as the
source's `if let (Some(wh), Some(offsets)) = ...`. -/
def writeOffsets (env : Env) (sw : Bool) (offsets : Option (List Offset)) :
    List Event :=
  match sw, offsets with
  | true, some os =>
      os.flatMap (fun ko =>
        match env.writeResult ko.1 ko.2 with
        | .ok _ => [Event.offsetWrite ko.1 ko.2]
        | .error e =>
            [Event.offsetWrite ko.1 ko.2,
             Event.logError ("Unable to write offsets. error: " ++ e)])
  | _, _ => []

/-- The result-classification `match` of `Client::send` (the five arms on
`self.inner.send(...)`): `Failed` records a failure metric and warns,
`Send`/`Timeout` record the respective metric, warn and hand the carried
body with the file offsets to `retry.retry` (an enqueue failure only logs),
any other error records a failure metric and warns, and `Sent` records a
success metric and flushes through the flush handle when one is present
(a flush failure only logs). -/
def processResponse (env : Env) (sf : Bool) (file_offsets : Option (List Offset))
    (res : SendResult) : List Event :=
  match res with
  | .ok (.Failed _ s r) =>
      [Event.metricFailure,
       Event.logWarn ("bad response " ++ toString s ++ ": " ++ r)]
  | .error (.Send body e) =>
      [Event.metricFailure,
       Event.logWarn ("failed sending http request, retrying: " ++ e),
       Event.retryEnqueue file_offsets body] ++
      (match env.retryResult file_offsets body with
       | .ok _ => []
       | .error e2 => [Event.logError ("failed to retry request: " ++ e2)])
  | .error (.Timeout body) =>
      [Event.metricTimeout,
       Event.logWarn "failed sending http request, retrying: request timed out!",
       Event.retryEnqueue file_offsets body] ++
      (match env.retryResult file_offsets body with
       | .ok _ => []
       | .error e2 => [Event.logError ("failed to retry request: " ++ e2)])
  | .error (.Other e) =>
      [Event.metricFailure,
       Event.logWarn ("failed sending http request: " ++ e)]
  | .ok .Sent =>
      Event.metricSuccess ::
      (if sf then
        (match env.flushResult with
         | .ok _ => [Event.flush]
         | .error e =>
             [Event.flush,
              Event.logError ("Unable to flush state to disk. error: " ++ e)])
       else [])

/-- Modelled from the spec: `Client::make_request`, invoked by `send` for a
ready retry entry, is not among the available sources.  Per the spec
(§4.4 steps 3–5 and §8), delivering a batch acquires an admission slot,
invokes the transport with the batch, and classifies the result exactly as
for a new batch. -/
def make_request (env : Env) (sf : Bool) (body : Body)
    (offsets : Option (List Offset)) : List Event :=
  Event.acquireSlot body :: Event.transportSend body ::
    processResponse env sf offsets (env.transport body)

/-- The `match self.retry.poll().await` head of `Client::send`:
`Ok((offsets, Some(body)))` writes the carried offsets through the write
handle and delivers the entry's body via `make_request`; `Err(e)` only logs;
`Ok((_, None))` does nothing. -/
def handlePoll (env : Env) (c : Client)
    (pollRes : Except String (Option (List Offset) × Option Body)) :
    List Event :=
  match pollRes with
  | .ok (offs, some rbody) =>
      writeOffsets env c.state_write offs ++
        make_request env c.state_flush rbody offs
  | .error e => [Event.logError ("error polling retry: " ++ e)]
  | .ok (_, none) => []

/-- The new-batch half of `Client::send`: record the request-size metric,
write the new batch's offsets (best-effort), acquire an admission slot,
invoke the transport and classify the result. -/
def processNew (env : Env) (c : Client) (body : Body)
    (file_offsets : Option (List Offset)) : List Event :=
  Event.metricRequestSize body.length ::
    (writeOffsets env c.state_write file_offsets ++
      (Event.acquireSlot body :: Event.transportSend body ::
        processResponse env c.state_flush file_offsets (env.transport body)))

/-- `Client::send(body, file_offsets)`: poll the retry engine once and
handle the outcome, then process the new batch. -/
def Client.send (c : Client) (env : Env)
    (pollRes : Except String (Option (List Offset) × Option Body))
    (body : Body) (file_offsets : Option (List Offset)) : List Event :=
  Event.pollRetry ::
    (handlePoll env c pollRes ++ processNew env c body file_offsets)

/-- Modelled from the spec: the `Retry` engine's implementation is not among
the available sources.  Its disk-backed queue is a time-ordered sequence of
records; a record either decodes to an entry (carried offsets plus body) or
is corrupt/unreadable. -/
inductive RetryRecord where
  | entry (offsets : Option (List Offset)) (body : Body) : RetryRecord
  | corrupt (e : String) : RetryRecord
deriving Repr, DecidableEq

/-- Modelled from the spec: `poll()` returns the oldest ready entry, or
`(None, None)` on an empty queue; it fails with a PollError only on a
corrupt head record, and on such failure the corrupt entry is skipped —
removed from the queue so polling continues with the next entry. -/
def Retry.poll (q : List RetryRecord) :
    Except String (Option (List Offset) × Option Body) × List RetryRecord :=
  match q with
  | [] => (Except.ok (none, none), [])
  | RetryRecord.entry o b :: rest => (Except.ok (o, some b), rest)
  | RetryRecord.corrupt e :: rest => (Except.error e, rest)

/-! ### Startup privilege step (`bin/src/main.rs`, Linux block of `main`) -/

/-- `env_vars::NO_CAP` from `common/config/src/env_vars.rs`. -/
def NO_CAP : String := "MZ_NO_CAP"

/-- Observable events of the Linux startup capability block. -/
inductive StartEvent where
  | attemptCaps : StartEvent
  | debugCaps : StartEvent
  | warnCaps : StartEvent
  | fatalStart (msg : String) : StartEvent
deriving Repr, DecidableEq

/-- The Linux capability block of `main`: when
`KUBERNETES_SERVICE_HOST` is set or `/.dockerenv` exists, and `MZ_NO_CAP`
is unset, call `set_capabilities()`; `Ok(true)` logs a debug line, any
other outcome (`Ok(false)` or `Err(_)`) logs a warning; in every case the
block falls through to the rest of startup.  `envVar` is
`std::env::var_os`, `dockerenv` is `Path::new("/.dockerenv").exists()`,
and `capResult` the outcome of `set_capabilities()`. -/
def capability_step (envVar : String → Option String) (dockerenv : Bool)
    (capResult : Except String Bool) : List StartEvent :=
  if ((envVar "KUBERNETES_SERVICE_HOST").isSome || dockerenv)
      && (envVar NO_CAP).isNone then
    StartEvent.attemptCaps ::
      (match capResult with
       | .ok true => [StartEvent.debugCaps]
       | _ => [StartEvent.warnCaps])
  else []

/-! ### Helper predicates over events -/

/-- Is this event a retry-engine enqueue? -/
def Event.isRetryEnqueue : Event → Bool
  | Event.retryEnqueue _ _ => true
  | _ => false

/-- Is this event an offset-store mutation (a write attempt or a flush)? -/
def Event.touchesState : Event → Bool
  | Event.offsetWrite _ _ => true
  | Event.flush => true
  | _ => false

/-- Is this event an admission-slot acquisition or a transport invocation? -/
def Event.isSlotOrSend : Event → Bool
  | Event.acquireSlot _ => true
  | Event.transportSend _ => true
  | _ => false

/-- Is this event a fatal error? -/
def Event.isFatal : Event → Bool
  | Event.fatal _ => true
  | _ => false

/-- The admission discipline of a trace: every transport invocation is
immediately preceded by the acquisition of a slot for the same body. -/
def slotHeld : List Event → Bool
  | [] => true
  | Event.acquireSlot b :: Event.transportSend b2 :: rest =>
      b == b2 && slotHeld rest
  | Event.transportSend _ :: _ => false
  | _ :: rest => slotHeld rest

/-- Is this event a flush of the offset store? -/
def Event.isFlush : Event → Bool
  | Event.flush => true
  | _ => false

/-- Is this event a retry-engine poll? -/
def Event.isPoll : Event → Bool
  | Event.pollRetry => true
  | _ => false

/-! ### Shape lemmas about the traces of each stage -/

theorem mem_writeOffsets_cases {env : Env} {sw : Bool} {o : Option (List Offset)}
    {ev : Event} (h : ev ∈ writeOffsets env sw o) :
    (∃ k n, ev = Event.offsetWrite k n) ∨ (∃ m, ev = Event.logError m) := by
  unfold writeOffsets at h
  split at h
  · rename_i os
    simp only [List.mem_flatMap] at h
    obtain ⟨ko, _, hko⟩ := h
    rcases hw : env.writeResult ko.1 ko.2 with e | u <;> rw [hw] at hko
    · simp only [List.mem_cons, List.not_mem_nil, or_false] at hko
      rcases hko with h | h
      · exact Or.inl ⟨ko.1, ko.2, h⟩
      · exact Or.inr ⟨_, h⟩
    · simp only [List.mem_cons, List.not_mem_nil, or_false] at hko
      exact Or.inl ⟨ko.1, ko.2, hko⟩
  · simp at h

theorem mem_processResponse_cases {env : Env} {sf : Bool}
    {fo : Option (List Offset)} {res : SendResult} {ev : Event}
    (h : ev ∈ processResponse env sf fo res) :
    ev = Event.metricFailure ∨ ev = Event.metricTimeout ∨
    ev = Event.metricSuccess ∨ ev = Event.flush ∨
    (∃ m, ev = Event.logWarn m) ∨ (∃ m, ev = Event.logError m) ∨
    (∃ o b, ev = Event.retryEnqueue o b) := by
  unfold processResponse at h
  split at h
  · simp only [List.mem_cons, List.not_mem_nil, or_false] at h
    rcases h with h | h <;> subst h <;> simp
  · rename_i b e
    simp only [List.mem_append, List.mem_cons, List.not_mem_nil,
      or_false] at h
    rcases h with (h | h | h) | h
    · subst h; simp
    · subst h; simp
    · subst h; simp
    · split at h
      · simp at h
      · simp only [List.mem_cons, List.not_mem_nil, or_false] at h
        subst h; simp
  · rename_i b
    simp only [List.mem_append, List.mem_cons, List.not_mem_nil,
      or_false] at h
    rcases h with (h | h | h) | h
    · subst h; simp
    · subst h; simp
    · subst h; simp
    · split at h
      · simp at h
      · simp only [List.mem_cons, List.not_mem_nil, or_false] at h
        subst h; simp
  · simp only [List.mem_cons, List.not_mem_nil, or_false] at h
    rcases h with h | h <;> subst h <;> simp
  · simp only [List.mem_cons] at h
    rcases h with h | h
    · subst h; simp
    · split at h
      · split at h
        · simp only [List.mem_cons, List.not_mem_nil, or_false] at h
          subst h; simp
        · simp only [List.mem_cons, List.not_mem_nil, or_false] at h
          rcases h with h | h <;> subst h <;> simp
      · simp at h

theorem countP_eq_zero_of_shape {l : List Event} {p : Event → Bool}
    (h : ∀ ev ∈ l, p ev = false) : l.countP p = 0 := by
  rw [List.countP_eq_zero]
  intro a ha
  simp [h a ha]

theorem writeOffsets_no_retryEnqueue (env : Env) (sw : Bool)
    (o : Option (List Offset)) :
    (writeOffsets env sw o).countP Event.isRetryEnqueue = 0 :=
  countP_eq_zero_of_shape fun ev h => by
    rcases mem_writeOffsets_cases h with ⟨k, n, rfl⟩ | ⟨m, rfl⟩ <;> rfl

theorem writeOffsets_no_flush (env : Env) (sw : Bool)
    (o : Option (List Offset)) :
    (writeOffsets env sw o).countP Event.isFlush = 0 :=
  countP_eq_zero_of_shape fun ev h => by
    rcases mem_writeOffsets_cases h with ⟨k, n, rfl⟩ | ⟨m, rfl⟩ <;> rfl

theorem writeOffsets_no_slotOrSend (env : Env) (sw : Bool)
    (o : Option (List Offset)) :
    (writeOffsets env sw o).countP Event.isSlotOrSend = 0 :=
  countP_eq_zero_of_shape fun ev h => by
    rcases mem_writeOffsets_cases h with ⟨k, n, rfl⟩ | ⟨m, rfl⟩ <;> rfl

theorem writeOffsets_no_poll (env : Env) (sw : Bool)
    (o : Option (List Offset)) :
    (writeOffsets env sw o).countP Event.isPoll = 0 :=
  countP_eq_zero_of_shape fun ev h => by
    rcases mem_writeOffsets_cases h with ⟨k, n, rfl⟩ | ⟨m, rfl⟩ <;> rfl

theorem writeOffsets_no_fatal (env : Env) (sw : Bool)
    (o : Option (List Offset)) :
    (writeOffsets env sw o).countP Event.isFatal = 0 :=
  countP_eq_zero_of_shape fun ev h => by
    rcases mem_writeOffsets_cases h with ⟨k, n, rfl⟩ | ⟨m, rfl⟩ <;> rfl

theorem processResponse_no_slotOrSend (env : Env) (sf : Bool)
    (fo : Option (List Offset)) (res : SendResult) :
    (processResponse env sf fo res).countP Event.isSlotOrSend = 0 :=
  countP_eq_zero_of_shape fun ev h => by
    rcases mem_processResponse_cases h with
      rfl | rfl | rfl | rfl | ⟨m, rfl⟩ | ⟨m, rfl⟩ | ⟨o, b, rfl⟩ <;> rfl

theorem processResponse_no_poll (env : Env) (sf : Bool)
    (fo : Option (List Offset)) (res : SendResult) :
    (processResponse env sf fo res).countP Event.isPoll = 0 :=
  countP_eq_zero_of_shape fun ev h => by
    rcases mem_processResponse_cases h with
      rfl | rfl | rfl | rfl | ⟨m, rfl⟩ | ⟨m, rfl⟩ | ⟨o, b, rfl⟩ <;> rfl

theorem processResponse_no_fatal (env : Env) (sf : Bool)
    (fo : Option (List Offset)) (res : SendResult) :
    (processResponse env sf fo res).countP Event.isFatal = 0 :=
  countP_eq_zero_of_shape fun ev h => by
    rcases mem_processResponse_cases h with
      rfl | rfl | rfl | rfl | ⟨m, rfl⟩ | ⟨m, rfl⟩ | ⟨o, b, rfl⟩ <;> rfl

/-- The two retryable transport outcomes of the classification `match`:
`HttpError::Send` and `HttpError::Timeout`. -/
def retriable : SendResult → Bool
  | .error (.Send _ _) => true
  | .error (.Timeout _) => true
  | _ => false

theorem countP_retryEnqueue_processResponse (env : Env) (sf : Bool)
    (fo : Option (List Offset)) (res : SendResult) :
    (processResponse env sf fo res).countP Event.isRetryEnqueue =
      if retriable res then 1 else 0 := by
  unfold processResponse
  split
  · rfl
  · rename_i b e
    rcases hr : env.retryResult fo b with e2 | u <;>
      simp [Event.isRetryEnqueue, retriable, List.countP_cons,
        List.countP_append, hr]
  · rename_i b
    rcases hr : env.retryResult fo b with e2 | u <;>
      simp [Event.isRetryEnqueue, retriable, List.countP_cons,
        List.countP_append, hr]
  · rfl
  · rename_i heq
    cases sf
    · rfl
    · rcases hf : env.flushResult with e2 | u <;>
        simp [Event.isRetryEnqueue, retriable, List.countP_cons, hf]

/-- Did the transport attempt return `Ok(Response::Sent)`? -/
def isSent : SendResult → Bool
  | .ok .Sent => true
  | _ => false

theorem countP_flush_processResponse (env : Env) (sf : Bool)
    (fo : Option (List Offset)) (res : SendResult) :
    (processResponse env sf fo res).countP Event.isFlush =
      if isSent res && sf then 1 else 0 := by
  unfold processResponse
  split
  · simp [Event.isFlush, isSent, List.countP_cons]
  · rename_i b e
    rcases hr : env.retryResult fo b with e2 | u <;>
      simp [Event.isFlush, isSent, List.countP_cons, List.countP_append, hr]
  · rename_i b
    rcases hr : env.retryResult fo b with e2 | u <;>
      simp [Event.isFlush, isSent, List.countP_cons, List.countP_append, hr]
  · simp [Event.isFlush, isSent, List.countP_cons]
  · cases sf
    · simp [Event.isFlush, isSent, List.countP_cons]
    · rcases hf : env.flushResult with e2 | u <;>
        simp [Event.isFlush, isSent, List.countP_cons, hf]

/-! ### Concrete environments used by the witnesses -/

/-- An environment whose collaborators all succeed, with the given
transport behaviour. -/
def envWith (t : Body → SendResult) : Env :=
  { transport := t
    writeResult := fun _ _ => Except.ok ()
    flushResult := Except.ok ()
    retryResult := fun _ _ => Except.ok () }

/-- Transport that rejects every batch with a 500 `Failed` response. -/
def envFailedW : Env :=
  envWith fun _ => Except.ok (Response.Failed [] 500 "internal error")

/-- Transport that fails every attempt with a `Send` error handing back
the batch. -/
def envSendErrW : Env :=
  envWith fun b => Except.error (HttpError.Send b "connection reset")

/-- Transport that accepts every batch. -/
def envSentW : Env := envWith fun _ => Except.ok Response.Sent

/-! ### The claims -/

/-- C1: in a send cycle where the transport returns an application-level
`Failed(status, reason)` response for the new batch, the orchestrator
records a failure metric and logs a warning, but never enqueues anything
into the Retry engine — regardless of the status code. -/
theorem failed_response_never_requeued (env : Env) (c : Client) (body : Body)
    (fo : Option (List Offset)) (rb : Body) (s : Nat) (r : String)
    (h : env.transport body = Except.ok (Response.Failed rb s r)) :
    (processNew env c body fo).countP Event.isRetryEnqueue = 0 ∧
    Event.metricFailure ∈ processNew env c body fo ∧
    Event.logWarn ("bad response " ++ toString s ++ ": " ++ r) ∈
      processNew env c body fo := by
  unfold processNew
  rw [h]
  refine ⟨?_, ?_, ?_⟩
  · simp [List.countP_cons, List.countP_append, writeOffsets_no_retryEnqueue,
      processResponse, Event.isRetryEnqueue]
  · simp [processResponse]
  · simp [processResponse]

theorem failed_response_never_requeued_witness :
    (processNew envFailedW (Client.new (some ((), ())) 0) [1, 2]
        (some [("a", 3)])).countP Event.isRetryEnqueue = 0 ∧
    Event.metricFailure ∈
      processNew envFailedW (Client.new (some ((), ())) 0) [1, 2]
        (some [("a", 3)]) ∧
    Event.logWarn ("bad response " ++ toString 500 ++ ": " ++ "internal error") ∈
      processNew envFailedW (Client.new (some ((), ())) 0) [1, 2]
        (some [("a", 3)]) :=
  failed_response_never_requeued envFailedW (Client.new (some ((), ())) 0)
    [1, 2] (some [("a", 3)]) [] 500 "internal error" rfl

/-- C2: in a send cycle where the transport attempt for the new batch fails
with a `Send` or `Timeout` error (handing the batch back), the orchestrator
records a failure metric (for `Send`) or a timeout metric (for `Timeout`)
and enqueues exactly one entry into the Retry engine, carrying the batch's
payload and file offsets unchanged. -/
theorem transient_failure_enqueues_once (env : Env) (c : Client) (body : Body)
    (fo : Option (List Offset)) (e : String)
    (h : env.transport body = Except.error (HttpError.Send body e) ∨
         env.transport body = Except.error (HttpError.Timeout body)) :
    (processNew env c body fo).countP Event.isRetryEnqueue = 1 ∧
    Event.retryEnqueue fo body ∈ processNew env c body fo ∧
    (env.transport body = Except.error (HttpError.Send body e) →
      Event.metricFailure ∈ processNew env c body fo) ∧
    (env.transport body = Except.error (HttpError.Timeout body) →
      Event.metricTimeout ∈ processNew env c body fo) := by
  rcases h with h | h
  · refine ⟨?_, ?_, ?_, ?_⟩
    · unfold processNew
      rw [h]
      simp [List.countP_cons, List.countP_append,
        writeOffsets_no_retryEnqueue, countP_retryEnqueue_processResponse,
        retriable, Event.isRetryEnqueue]
    · unfold processNew
      rw [h]
      simp [processResponse]
    · intro _
      unfold processNew
      rw [h]
      simp [processResponse]
    · intro h2
      rw [h] at h2
      simp at h2
  · refine ⟨?_, ?_, ?_, ?_⟩
    · unfold processNew
      rw [h]
      simp [List.countP_cons, List.countP_append,
        writeOffsets_no_retryEnqueue, countP_retryEnqueue_processResponse,
        retriable, Event.isRetryEnqueue]
    · unfold processNew
      rw [h]
      simp [processResponse]
    · intro h2
      rw [h] at h2
      simp at h2
    · intro _
      unfold processNew
      rw [h]
      simp [processResponse]

theorem transient_failure_enqueues_once_witness :
    (processNew envSendErrW (Client.new (some ((), ())) 0) [7]
        (some [("f", 42)])).countP Event.isRetryEnqueue = 1 ∧
    Event.retryEnqueue (some [("f", 42)]) [7] ∈
      processNew envSendErrW (Client.new (some ((), ())) 0) [7]
        (some [("f", 42)]) ∧
    (envSendErrW.transport [7] =
        Except.error (HttpError.Send [7] "connection reset") →
      Event.metricFailure ∈
        processNew envSendErrW (Client.new (some ((), ())) 0) [7]
          (some [("f", 42)])) ∧
    (envSendErrW.transport [7] = Except.error (HttpError.Timeout [7]) →
      Event.metricTimeout ∈
        processNew envSendErrW (Client.new (some ((), ())) 0) [7]
          (some [("f", 42)])) :=
  transient_failure_enqueues_once envSendErrW (Client.new (some ((), ())) 0)
    [7] (some [("f", 42)]) "connection reset" (Or.inl rfl)

/-- C3: over a whole send cycle, the offset store is flushed exactly once
for each delivery attempt that returned `Sent` while a flush handle is
present — once for the retry entry's attempt when one is ready and it
returns `Sent`, once for the new batch's attempt when it returns `Sent` —
and no other result classification ever invokes a flush. -/
theorem flush_iff_sent (env : Env) (c : Client) (body : Body)
    (fo : Option (List Offset))
    (pollRes : Except String (Option (List Offset) × Option Body)) :
    (Client.send c env pollRes body fo).countP Event.isFlush =
      (match pollRes with
       | .ok (_, some rb) =>
           if isSent (env.transport rb) && c.state_flush then 1 else 0
       | _ => 0) +
      (if isSent (env.transport body) && c.state_flush then 1 else 0) := by
  unfold Client.send processNew handlePoll make_request
  rcases pollRes with e | ⟨o, b⟩
  · simp [Event.isFlush, List.countP_cons, List.countP_append,
      writeOffsets_no_flush, countP_flush_processResponse]
  · rcases b with _ | rb <;>
      simp [Event.isFlush, List.countP_cons, List.countP_append,
        writeOffsets_no_flush, countP_flush_processResponse]

theorem make_request_no_poll (env : Env) (sf : Bool) (b : Body)
    (o : Option (List Offset)) :
    (make_request env sf b o).countP Event.isPoll = 0 := by
  simp [make_request, List.countP_cons, processResponse_no_poll, Event.isPoll]

theorem processNew_no_poll (env : Env) (c : Client) (b : Body)
    (fo : Option (List Offset)) :
    (processNew env c b fo).countP Event.isPoll = 0 := by
  simp [processNew, List.countP_cons, List.countP_append,
    processResponse_no_poll, writeOffsets_no_poll, Event.isPoll]

theorem offsetWrite_mem_writeOffsets (env : Env) (os : List Offset)
    {ko : Offset} (h : ko ∈ os) :
    Event.offsetWrite ko.1 ko.2 ∈ writeOffsets env true (some os) := by
  simp only [writeOffsets, List.mem_flatMap]
  refine ⟨ko, h, ?_⟩
  rcases hw : env.writeResult ko.1 ko.2 with e | u <;> simp

/-- C4: in every send cycle the Retry engine is polled exactly once, at the
head of the cycle, and when the poll yields a ready entry the whole handling
of that entry — writing its carried offsets into the offset store and
attempting its delivery through the transport — precedes everything done for
the new batch (whose processing `processNew` writes the new offsets and hands
the new batch to the transport). -/
theorem retry_serviced_before_new_batch (env : Env) (c : Client) (body : Body)
    (fo offs : Option (List Offset)) (rbody : Body)
    (pollRes : Except String (Option (List Offset) × Option Body))
    (hpoll : pollRes = Except.ok (offs, some rbody)) :
    (Client.send c env pollRes body fo).countP Event.isPoll = 1 ∧
    Client.send c env pollRes body fo =
      Event.pollRetry ::
        ((writeOffsets env c.state_write offs ++
            make_request env c.state_flush rbody offs) ++
          processNew env c body fo) ∧
    Event.transportSend rbody ∈
      writeOffsets env c.state_write offs ++
        make_request env c.state_flush rbody offs ∧
    (c.state_write = true → ∀ os, offs = some os → ∀ ko ∈ os,
      Event.offsetWrite ko.1 ko.2 ∈ writeOffsets env c.state_write offs) := by
  subst hpoll
  refine ⟨?_, ?_, ?_, ?_⟩
  · simp [Client.send, handlePoll, List.countP_cons, List.countP_append,
      writeOffsets_no_poll, make_request_no_poll, processNew_no_poll,
      Event.isPoll]
  · simp [Client.send, handlePoll]
  · simp [make_request]
  · intro hsw os hos ko hko
    subst hos
    rw [hsw]
    exact offsetWrite_mem_writeOffsets env os hko

theorem retry_serviced_before_new_batch_witness :
    (Client.send (Client.new (some ((), ())) 0) envSentW
        (Except.ok (some [("r", 5)], some [9])) [1] (some [("a", 3)])).countP
        Event.isPoll = 1 ∧
    Client.send (Client.new (some ((), ())) 0) envSentW
        (Except.ok (some [("r", 5)], some [9])) [1] (some [("a", 3)]) =
      Event.pollRetry ::
        ((writeOffsets envSentW (Client.new (some ((), ())) 0).state_write
              (some [("r", 5)]) ++
            make_request envSentW (Client.new (some ((), ())) 0).state_flush
              [9] (some [("r", 5)])) ++
          processNew envSentW (Client.new (some ((), ())) 0) [1]
            (some [("a", 3)])) ∧
    Event.transportSend [9] ∈
      writeOffsets envSentW (Client.new (some ((), ())) 0).state_write
          (some [("r", 5)]) ++
        make_request envSentW (Client.new (some ((), ())) 0).state_flush [9]
          (some [("r", 5)]) ∧
    ((Client.new (some ((), ())) 0).state_write = true →
      ∀ os, (some [("r", 5)] : Option (List Offset)) = some os → ∀ ko ∈ os,
        Event.offsetWrite ko.1 ko.2 ∈
          writeOffsets envSentW (Client.new (some ((), ())) 0).state_write
            (some [("r", 5)])) :=
  retry_serviced_before_new_batch envSentW (Client.new (some ((), ())) 0)
    [1] (some [("a", 3)]) (some [("r", 5)]) [9]
    (Except.ok (some [("r", 5)], some [9])) rfl

/-- C5: a corrupt record at the head of the retry queue makes `poll` fail
with a PollError while removing the corrupt record, so the next poll yields
the next entry and a single corrupt record never stalls the queue; the send
cycle that receives the poll error logs it and still delivers the new
batch. -/
theorem corrupt_retry_record_skipped (env : Env) (c : Client) (body : Body)
    (fo : Option (List Offset)) (e : String) (o : Option (List Offset))
    (rb : Body) (rest : List RetryRecord) :
    Retry.poll (RetryRecord.corrupt e :: RetryRecord.entry o rb :: rest) =
      (Except.error e, RetryRecord.entry o rb :: rest) ∧
    Retry.poll (RetryRecord.entry o rb :: rest) =
      (Except.ok (o, some rb), rest) ∧
    Event.logError ("error polling retry: " ++ e) ∈
      Client.send c env (Except.error e) body fo ∧
    Event.transportSend body ∈
      Client.send c env (Except.error e) body fo := by
  refine ⟨rfl, rfl, ?_, ?_⟩
  · simp [Client.send, handlePoll]
  · simp [Client.send, handlePoll, processNew]

theorem slotHeld_cons_of_not_slot (ev : Event) (l : List Event)
    (h : Event.isSlotOrSend ev = false) : slotHeld (ev :: l) = slotHeld l := by
  cases ev <;> simp_all [slotHeld, Event.isSlotOrSend]

theorem slotHeld_append_of_no_slot (l m : List Event)
    (h : l.countP Event.isSlotOrSend = 0) :
    slotHeld (l ++ m) = slotHeld m := by
  induction l with
  | nil => rfl
  | cons ev l ih =>
    rw [List.countP_cons] at h
    rcases hev : Event.isSlotOrSend ev with _ | _
    · rw [hev] at h
      simp only [if_neg Bool.false_ne_true, Nat.add_zero] at h
      rw [List.cons_append, slotHeld_cons_of_not_slot ev (l ++ m) hev]
      exact ih h
    · rw [hev] at h
      simp at h

theorem slotHeld_of_no_slot (l : List Event)
    (h : l.countP Event.isSlotOrSend = 0) : slotHeld l = true := by
  have := slotHeld_append_of_no_slot l [] h
  simpa using this

theorem slotHeld_pair (b : Body) (l : List Event) :
    slotHeld (Event.acquireSlot b :: Event.transportSend b :: l) =
      slotHeld l := by
  simp [slotHeld]

theorem slotHeld_processNew (env : Env) (c : Client) (body : Body)
    (fo : Option (List Offset)) :
    slotHeld (processNew env c body fo) = true := by
  unfold processNew
  rw [slotHeld_cons_of_not_slot (Event.metricRequestSize body.length) _ rfl,
    slotHeld_append_of_no_slot _ _ (writeOffsets_no_slotOrSend env _ fo),
    slotHeld_pair]
  exact slotHeld_of_no_slot _ (processResponse_no_slotOrSend env _ fo _)

/-- C6: the admission limiter is constructed with capacity 10 by
`Client::new`, and in every send cycle every invocation of the transport —
for the new batch as well as for a ready retry entry — happens immediately
after acquiring an admission slot for exactly the body being sent; no batch
is ever handed to the transport without holding a slot. -/
theorem admission_slot_held (sh : Option (Unit × Unit)) (rbd : Nat)
    (env : Env) (c : Client) (body : Body) (fo : Option (List Offset))
    (pollRes : Except String (Option (List Offset) × Option Body)) :
    (Client.new sh rbd).limiter.capacity = 10 ∧
    slotHeld (Client.send c env pollRes body fo) = true := by
  constructor
  · rfl
  · unfold Client.send
    rw [slotHeld_cons_of_not_slot Event.pollRetry _ rfl]
    rcases pollRes with e | ⟨o, b⟩
    · rw [show handlePoll env c (Except.error e) =
          [Event.logError ("error polling retry: " ++ e)] from rfl,
        slotHeld_append_of_no_slot
          [Event.logError ("error polling retry: " ++ e)] _ rfl]
      exact slotHeld_processNew env c body fo
    · rcases b with _ | rb
      · rw [show handlePoll env c (Except.ok (o, none)) = [] from rfl]
        exact slotHeld_processNew env c body fo
      · rw [show handlePoll env c (Except.ok (o, some rb)) =
            writeOffsets env c.state_write o ++
              make_request env c.state_flush rb o from rfl,
          List.append_assoc,
          slotHeld_append_of_no_slot _ _ (writeOffsets_no_slotOrSend env _ o)]
        unfold make_request
        rw [List.cons_append, List.cons_append, slotHeld_pair,
          slotHeld_append_of_no_slot _ _
            (processResponse_no_slotOrSend env _ o _)]
        exact slotHeld_processNew env c body fo

/-- C7: for every batch, every poll outcome, every transport outcome and
every combination of collaborator failures, `Client::send` completes the
cycle without raising a fatal error: its trace never contains a fatal
event, the request-size metric is always recorded and the new batch is
always handed to the transport. -/
theorem send_never_fatal (env : Env) (c : Client) (body : Body)
    (fo : Option (List Offset))
    (pollRes : Except String (Option (List Offset) × Option Body)) :
    (Client.send c env pollRes body fo).countP Event.isFatal = 0 ∧
    Event.metricRequestSize body.length ∈ Client.send c env pollRes body fo ∧
    Event.transportSend body ∈ Client.send c env pollRes body fo := by
  refine ⟨?_, ?_, ?_⟩
  · unfold Client.send
    rw [List.countP_cons]
    have hnew : (processNew env c body fo).countP Event.isFatal = 0 := by
      simp [processNew, List.countP_cons, List.countP_append,
        processResponse_no_fatal, writeOffsets_no_fatal, Event.isFatal]
    have hpoll : (handlePoll env c pollRes).countP Event.isFatal = 0 := by
      rcases pollRes with e | ⟨o, b⟩
      · rfl
      · rcases b with _ | rb
        · rfl
        · simp [handlePoll, make_request, List.countP_cons,
            List.countP_append, processResponse_no_fatal,
            writeOffsets_no_fatal, Event.isFatal]
    simp [List.countP_append, hnew, hpoll, Event.isFatal]
  · simp [Client.send, processNew]
  · simp [Client.send, processNew]

theorem logError_mem_writeOffsets (env : Env) (os : List Offset)
    {ko : Offset} {e : String} (h : ko ∈ os)
    (hw : env.writeResult ko.1 ko.2 = Except.error e) :
    Event.logError ("Unable to write offsets. error: " ++ e) ∈
      writeOffsets env true (some os) := by
  simp only [writeOffsets, List.mem_flatMap]
  refine ⟨ko, h, ?_⟩
  rw [hw]
  simp

/-- C8: a failing offset write is logged and does not halt the cycle — every
other offset of the batch is still written (attempted) and the transport is
still invoked for the batch. -/
theorem offset_write_error_best_effort (env : Env) (c : Client) (body : Body)
    (os : List Offset) (ko1 ko2 : Offset) (e : String)
    (hsw : c.state_write = true) (h1 : ko1 ∈ os) (h2 : ko2 ∈ os)
    (hw : env.writeResult ko1.1 ko1.2 = Except.error e) :
    Event.logError ("Unable to write offsets. error: " ++ e) ∈
      processNew env c body (some os) ∧
    Event.offsetWrite ko2.1 ko2.2 ∈ processNew env c body (some os) ∧
    Event.transportSend body ∈ processNew env c body (some os) := by
  refine ⟨?_, ?_, ?_⟩
  · unfold processNew
    rw [hsw]
    simp only [List.mem_cons, List.mem_append]
    exact Or.inr (Or.inl (logError_mem_writeOffsets env os h1 hw))
  · unfold processNew
    rw [hsw]
    simp only [List.mem_cons, List.mem_append]
    exact Or.inr (Or.inl (offsetWrite_mem_writeOffsets env os h2))
  · simp [processNew]

/-- Environment whose offset writes fail for source `"bad"` and succeed
otherwise, with a transport that accepts every batch. -/
def envBadWriteW : Env :=
  { transport := fun _ => Except.ok Response.Sent
    writeResult := fun k _ =>
      if k = "bad" then Except.error "disk full" else Except.ok ()
    flushResult := Except.ok ()
    retryResult := fun _ _ => Except.ok () }

theorem offset_write_error_best_effort_witness :
    Event.logError ("Unable to write offsets. error: " ++ "disk full") ∈
      processNew envBadWriteW (Client.new (some ((), ())) 0) [4]
        (some [("bad", 1), ("good", 2)]) ∧
    Event.offsetWrite "good" 2 ∈
      processNew envBadWriteW (Client.new (some ((), ())) 0) [4]
        (some [("bad", 1), ("good", 2)]) ∧
    Event.transportSend [4] ∈
      processNew envBadWriteW (Client.new (some ((), ())) 0) [4]
        (some [("bad", 1), ("good", 2)]) :=
  offset_write_error_best_effort envBadWriteW (Client.new (some ((), ())) 0)
    [4] [("bad", 1), ("good", 2)] ("bad", 1) ("good", 2) "disk full" rfl
    (by simp) (by simp) rfl

/-- Is this startup event fatal? -/
def StartEvent.isFatalStart : StartEvent → Bool
  | StartEvent.fatalStart _ => true
  | _ => false

/-- C9: the capability acquisition is attempted exactly when the process is
containerized (`KUBERNETES_SERVICE_HOST` set or `/.dockerenv` present) and
`MZ_NO_CAP` is unset; a failed attempt (an error from `set_capabilities`, or
success without obtaining the capability) only logs a warning; the step
never produces a fatal outcome, for every environment and every
`set_capabilities` result. -/
theorem capability_step_never_fatal (envVar : String → Option String)
    (dockerenv : Bool) (capResult : Except String Bool) (e : String) :
    (StartEvent.attemptCaps ∈ capability_step envVar dockerenv capResult ↔
      (((envVar "KUBERNETES_SERVICE_HOST").isSome || dockerenv)
          && (envVar NO_CAP).isNone) = true) ∧
    (capability_step envVar dockerenv capResult).countP
      StartEvent.isFatalStart = 0 ∧
    (capResult = Except.error e →
      StartEvent.attemptCaps ∈ capability_step envVar dockerenv capResult →
      StartEvent.warnCaps ∈ capability_step envVar dockerenv capResult) ∧
    (capResult = Except.ok false →
      StartEvent.attemptCaps ∈ capability_step envVar dockerenv capResult →
      StartEvent.warnCaps ∈ capability_step envVar dockerenv capResult) := by
  unfold capability_step
  by_cases hc : (((envVar "KUBERNETES_SERVICE_HOST").isSome || dockerenv)
      && (envVar NO_CAP).isNone) = true
  · rw [if_pos hc]
    refine ⟨⟨fun _ => hc, fun _ => List.mem_cons_self _ _⟩, ?_, ?_, ?_⟩
    · rcases capResult with e2 | b
      · rfl
      · cases b <;> rfl
    · intro hr _
      subst hr
      simp
    · intro hr _
      subst hr
      simp
  · rw [if_neg hc]
    refine ⟨⟨fun hm => absurd hm (List.not_mem_nil _), fun hcc => absurd hcc hc⟩,
      rfl, ?_, ?_⟩
    · intro _ hm
      exact absurd hm (List.not_mem_nil _)
    · intro _ hm
      exact absurd hm (List.not_mem_nil _)

/-- C10: a client constructed with `state_handles = None` has neither a
write nor a flush handle, and no invocation of `send` — whatever the poll
outcome, the transport outcome or the collaborator failures — ever touches
the offset state: its trace contains no offset write and no flush, on the
retry-entry path, the new-batch path and the `Sent` branch alike. -/
theorem no_state_handles_no_state_touch (rbd : Nat) (env : Env)
    (pollRes : Except String (Option (List Offset) × Option Body))
    (body : Body) (fo : Option (List Offset)) :
    (Client.new none rbd).state_write = false ∧
    (Client.new none rbd).state_flush = false ∧
    ((Client.new none rbd).send env pollRes body fo).countP
      Event.touchesState = 0 := by
  refine ⟨rfl, rfl, ?_⟩
  unfold Client.send
  rw [List.countP_cons, List.countP_append]
  have hpr : ∀ fo2 res, (processResponse env (Client.new none rbd).state_flush
      fo2 res).countP Event.touchesState = 0 := by
    intro fo2 res
    unfold processResponse
    split
    · rfl
    · rename_i b e
      rcases hr : env.retryResult fo2 b with e2 | u <;>
        simp [Event.touchesState, List.countP_cons, List.countP_append, hr]
    · rename_i b
      rcases hr : env.retryResult fo2 b with e2 | u <;>
        simp [Event.touchesState, List.countP_cons, List.countP_append, hr]
    · rfl
    · rfl
  have hnew : (processNew env (Client.new none rbd) body fo).countP
      Event.touchesState = 0 := by
    unfold processNew
    simp only [List.countP_cons, List.countP_append]
    rw [show writeOffsets env (Client.new none rbd).state_write fo = []
      from rfl, hpr]
    rfl
  have hpoll : (handlePoll env (Client.new none rbd) pollRes).countP
      Event.touchesState = 0 := by
    rcases pollRes with e | ⟨o, b⟩
    · rfl
    · rcases b with _ | rb
      · rfl
      · unfold handlePoll make_request
        simp only [List.countP_cons, List.countP_append]
        rw [show writeOffsets env (Client.new none rbd).state_write o = []
          from rfl, hpr]
        rfl
  rw [hnew, hpoll]
  rfl

end Agent
